import Mathlib

/-
Verification development for the genltest repository: a generic-netlink
example consisting of a kernel module (src/ks/genltest.c, src/ks/genltest.h)
and a libnl userspace client (src/us/genltest.c).

The C functions are shallowly embedded as Lean functions.  Outcomes of the
external transport/allocator primitives (nlmsg_new, genlmsg_put,
nla_put_string, genlmsg_reply, genlmsg_multicast, nl_send_auto, the sysfs
and registration APIs) are supplied by explicit environment records, so a
single Lean function covers every control path of the corresponding C
function.  Buffer-management calls are additionally recorded as an event
ledger so that resource-discipline properties can be stated.
-/

/-! Shared constants from src/ks/genltest.h. -/

def GENLTEST_GENL_NAME : String := "genltest"

def GENLTEST_GENL_VERSION : Nat := 1

def GENLTEST_MC_GRP_NAME : String := "mcgrp"

def GENLTEST_A_UNSPEC : Nat := 0

def GENLTEST_A_MSG : Nat := 1

def GENLTEST_A_MAX : Nat := 1

def GENLTEST_CMD_UNSPEC : Nat := 0

def GENLTEST_CMD_ECHO : Nat := 1

/-- MSG_MAX_LEN from src/ks/genltest.c line 24. -/
def MSG_MAX_LEN : Nat := 1024

/-! Errno values used by the two C files (linux errno numbers). -/

def ENOENT : Int := 2

def ESRCH : Int := 3

def ENOMEM : Int := 12

def EMSGSIZE : Int := 90

/-- Byte list of an ASCII string literal. -/
def strBytes (s : String) : List Nat := s.data.map Char.toNat

/-- The fixed reply string of echo_doit (src/ks/genltest.c line 61). -/
def kernelHello : List Nat := strBytes "Hello from Kernel Space, Netlink!"

/-- The fixed request string of send_echo_msg (src/us/genltest.c line 76). -/
def userHello : List Nat := strBytes "Hello from User Space, Netlink!"

/-! Event ledger for message-buffer management.  alloc is a successful
nlmsg_new / genlmsg_new / nlmsg_alloc; free is nlmsg_free; cancel is
genlmsg_cancel (trims, does not release); fin is genlmsg_end; consume is
genlmsg_reply / genlmsg_multicast, which take ownership of the buffer in
the kernel API; send is nl_send_auto, which does not take ownership in
libnl. -/

inductive Ev where
  | alloc
  | cancel
  | fin
  | free
  | consume
  | send
deriving DecidableEq, Repr

/-- A release of a message buffer is nlmsg_free or an ownership-taking send. -/
def Ev.isRelease : Ev → Bool
  | .free => true
  | .consume => true
  | _ => false

/-- Number of buffers allocated in a ledger. -/
def allocCount (evs : List Ev) : Nat := evs.countP (fun e => e = Ev.alloc)

/-- Number of buffers released in a ledger. -/
def releaseCount (evs : List Ev) : Nat := evs.countP (fun e => e.isRelease)

/-! Kernel side: src/ks/genltest.c. -/

/-- Outcomes of the kernel transport/allocator primitives for one run of a
message-building function: whether nlmsg_new / genlmsg_new succeeds, whether
genlmsg_put succeeds, the return of nla_put_string (0 on success, negative
errno on failure), and the return of the final genlmsg_reply or
genlmsg_multicast call. -/
structure KernOut where
  nlmsgNewOk : Bool
  genlmsgPutOk : Bool
  nlaPutRet : Int
  sendRet : Int
deriving DecidableEq, Repr

/-- Environment in which every primitive succeeds (sendRet 0). -/
def allOk : KernOut := ⟨true, true, 0, 0⟩

/-- The part of struct genl_info read by echo_doit: the decoded attribute
table entry for GENLTEST_A_MSG (none when the attribute is absent from the
request), and the sender port id and sequence number. -/
structure GenlInfo where
  msgAttr : Option (List Nat)
  snd_portid : Nat
  snd_seq : Nat
deriving DecidableEq, Repr

/-- A reply message as handed to genlmsg_reply: header port id and sequence
number written by genlmsg_put, the command id, and the string payload of
its single GENLTEST_A_MSG attribute. -/
structure Reply where
  portid : Nat
  seq : Nat
  cmd : Nat
  msg : List Nat
deriving DecidableEq, Repr

/-- Model of echo_doit (src/ks/genltest.c lines 30-76).  Returns the C
return value, the reply handed to genlmsg_reply (none when no reply was
sent), and the buffer-management ledger.  The presence test on
info->attrs[GENLTEST_A_MSG] only selects a log line and does not affect
the reply. -/
def echo_doit (info : GenlInfo) (o : KernOut) : Int × Option Reply × List Ev :=
  if !o.nlmsgNewOk then (-ENOMEM, none, [])
  else if !o.genlmsgPutOk then (-EMSGSIZE, none, [.alloc, .free])
  else if o.nlaPutRet ≠ 0 then (o.nlaPutRet, none, [.alloc, .cancel, .free])
  else (o.sendRet,
        some ⟨info.snd_portid, info.snd_seq, GENLTEST_CMD_ECHO, kernelHello⟩,
        [.alloc, .fin, .consume])

/-- Validation of one present NLA_NUL_STRING attribute payload (kernel
validate_nla for the policy entry echo_pol[GENLTEST_A_MSG], src/ks/genltest.c
line 80): the payload must be nonempty and contain a terminating zero byte. -/
def nulStringOk (payload : List Nat) : Bool :=
  !payload.isEmpty && payload.contains 0

/-- Validation of a request attribute set against echo_pol (src/ks/genltest.c
lines 79-81): the policy marks no attribute as required, so an absent
GENLTEST_A_MSG passes; a present one must satisfy NLA_NUL_STRING. -/
def echo_pol_validate (msgAttr : Option (List Nat)) : Bool :=
  match msgAttr with
  | none => true
  | some p => nulStringOk p

/-- Classification of the genlmsg_multicast return value by the if/else
chain of echo_ping (src/ks/genltest.c lines 142-148). -/
inductive McastStatus where
  | delivered
  | noSubscribers
  | sendFailure
deriving DecidableEq, Repr

/-- The branch echo_ping logs for a given genlmsg_multicast result:
-ESRCH is the distinguished nobody-listening case. -/
def classifyMcast (ret : Int) : McastStatus :=
  if ret = -ESRCH then .noSubscribers
  else if ret ≠ 0 then .sendFailure
  else .delivered

/-- C string contents of a byte buffer: the bytes before the first zero
byte (what strlen-based consumers such as nla_put_string read). -/
def cstr (buf : List Nat) : List Nat := buf.takeWhile (fun b => b ≠ 0)

/-- A multicast message as handed to genlmsg_multicast: target group index,
command id, and the string payload of its GENLTEST_A_MSG attribute. -/
structure Mcast where
  grpIdx : Nat
  cmd : Nat
  msg : List Nat
deriving DecidableEq, Repr

/-- Model of echo_ping (src/ks/genltest.c lines 109-151).  buf is the byte
content of the C buffer pointer; cnt is the count argument, which the C
body never reads: nla_put_string copies cstr buf.  Returns the C return
value, the message handed to genlmsg_multicast, the log classification of
the multicast result, and the buffer ledger. -/
def echo_ping (buf : List Nat) (cnt : Nat) (o : KernOut) :
    Int × Option Mcast × Option McastStatus × List Ev :=
  if !o.nlmsgNewOk then (-ENOMEM, none, none, [])
  else if !o.genlmsgPutOk then (-ENOMEM, none, none, [.alloc, .free])
  else if o.nlaPutRet ≠ 0 then (o.nlaPutRet, none, none, [.alloc, .cancel, .free])
  else (o.sendRet,
        some ⟨0, GENLTEST_CMD_ECHO, cstr buf⟩,
        some (classifyMcast o.sendRet),
        [.alloc, .fin, .consume])

/-- Model of ping_store (src/ks/genltest.c lines 157-164).  data is the
sequence of bytes written; sysfs hands the handler a zero-terminated page
buffer (data ++ [0]) and cnt = data.length.  The first component is the
ssize_t return value; the echo_ping result is kept only to observe what
was emitted, the C code discards it. -/
def ping_store (data : List Nat) (o : KernOut) :
    Nat × Int × Option Mcast × Option McastStatus × List Ev :=
  let cnt := data.length
  let mx := if cnt > MSG_MAX_LEN then MSG_MAX_LEN else cnt
  (mx, echo_ping (data ++ [0]) mx o)

/-! Userspace client: src/us/genltest.c. -/

/-- Outcomes of the libnl primitives for one run of send_echo_msg:
whether nlmsg_alloc succeeds, whether genlmsg_put succeeds, the return of
nla_put_string (0 on success, negative on failure), and the return of
nl_send_auto (number of bytes sent when nonnegative, negative error
otherwise). -/
structure UserOut where
  nlmsgAllocOk : Bool
  genlmsgPutOk : Bool
  nlaPutRet : Int
  nlSendRet : Int
deriving DecidableEq, Repr

/-- A request message as built by send_echo_msg: resolved family id,
command, protocol version, and the string payload of GENLTEST_A_MSG. -/
structure UMsg where
  fam : Int
  cmd : Nat
  version : Nat
  msg : List Nat
deriving DecidableEq, Repr

/-- Model of send_echo_msg (src/us/genltest.c lines 59-89).  Returns the C
return value, the message handed to nl_send_auto, and the buffer ledger.
The genlmsg_put and nla_put_string failure branches return without calling
nlmsg_free, and the latter returns -err, flipping the sign of the libnl
error; both are reproduced as in the source. -/
def send_echo_msg (fam : Int) (o : UserOut) : Int × Option UMsg × List Ev :=
  if !o.nlmsgAllocOk then (-ENOMEM, none, [])
  else if !o.genlmsgPutOk then (-EMSGSIZE, none, [.alloc])
  else if o.nlaPutRet < 0 then (-o.nlaPutRet, none, [.alloc])
  else
    ((if o.nlSendRet ≥ 0 then 0 else o.nlSendRet),
     some ⟨fam, GENLTEST_CMD_ECHO, GENLTEST_GENL_VERSION, userHello⟩,
     [.alloc, .send, .free])

/-- Outcomes of the client-session primitives used by main
(src/us/genltest.c lines 116-178): the two conn results, the
genl_ctrl_resolve result (resolved family id when nonnegative, negative
errno otherwise), the genl_ctrl_resolve_grp result, the
nl_socket_add_membership result, the two nl_socket_modify_cb results,
and the send_echo_msg result. -/
structure ClientEnv where
  connUcRet : Int
  connMcRet : Int
  famRet : Int
  mcgrpRet : Int
  addMembershipRet : Int
  setCbUcRet : Int
  setCbMcRet : Int
  sendRet : Int
deriving DecidableEq, Repr

/-- Model of main (src/us/genltest.c lines 116-178): the value main
returns, or none when control reaches the unbounded notification loop
(which the process leaves only by external termination).  ret starts at 1
but is overwritten by the first conn assignment; on a failed family or
group resolve the code jumps to out with ret still holding the 0 of the
successful conn; the add_membership condition assigns the comparison
result (ret = (x < 0)), so that failure returns 1; a send_echo_msg
failure only logs and falls through to the receive loops. -/
def mainModel (env : ClientEnv) : Option Int :=
  if env.connUcRet ≠ 0 then some env.connUcRet
  else if env.connMcRet ≠ 0 then some env.connMcRet
  else if env.famRet < 0 then some 0
  else if env.mcgrpRet < 0 then some 0
  else if env.addMembershipRet < 0 then some 1
  else if env.setCbUcRet ≠ 0 then some env.setCbUcRet
  else if env.setCbMcRet ≠ 0 then some env.setCbMcRet
  else none

/-- Process exit status of a C program whose main returns r: the low
8 bits of r. -/
def exitStatus (r : Int) : Nat := (r % 256).toNat

/-! Service lifecycle: init_genltest and exit_genltest
(src/ks/genltest.c lines 169-209). -/

/-- Observable service state: whether the sysfs trigger file exists and
whether the genl family is registered with the transport. -/
structure SvcState where
  triggerFile : Bool
  registered : Bool
deriving DecidableEq, Repr

/-- State with neither the trigger file nor the registration. -/
def sNone : SvcState := ⟨false, false⟩

/-- State with the trigger file created, family not registered. -/
def sFile : SvcState := ⟨true, false⟩

/-- State with the trigger file created and the family registered. -/
def sReg : SvcState := ⟨true, true⟩

/-- Outcomes of the init-time primitives: kobject_create_and_add,
sysfs_create_file, genl_register_family. -/
structure InitEnv where
  kobjOk : Bool
  sysfsCreateRet : Int
  registerRet : Int
deriving DecidableEq, Repr

/-- Model of init_genltest (src/ks/genltest.c lines 169-197): the sequence
of observable states it passes through, and its return value.  The kobject
is created first, then the sysfs file, and only then is the family
registered; on a registration failure the sysfs file is removed and the
kobject released again. -/
def init_trace (e : InitEnv) : List SvcState × Int :=
  if !e.kobjOk then ([sNone], -ENOMEM)
  else if e.sysfsCreateRet ≠ 0 then ([sNone, sNone], e.sysfsCreateRet)
  else if e.registerRet ≠ 0 then ([sNone, sFile, sNone], e.registerRet)
  else ([sNone, sFile, sReg], 0)

/-- Semantics of genl_unregister_family: removing a registered family
succeeds and clears the registration; removing an unregistered family
fails with -ENOENT and changes nothing. -/
def genl_unregister (s : SvcState) : SvcState × Int :=
  if s.registered then (⟨s.triggerFile, false⟩, 0) else (s, -ENOENT)

/-- Model of exit_genltest (src/ks/genltest.c lines 199-209): unregister
the family first (a failure is only logged), then remove the sysfs file
and release the kobject.  Returns the sequence of states after the start
state s. -/
def exit_trace (s : SvcState) : List SvcState :=
  let s1 := (genl_unregister s).1
  [s1, ⟨false, s1.registered⟩]

/-- All observable states of a full module lifecycle under init outcome e:
the init states, followed, when init succeeded, by the exit states. -/
def lifecycle (e : InitEnv) : List SvcState :=
  (init_trace e).1 ++ (if (init_trace e).2 = 0 then exit_trace sReg else [])

/-! Attribute codec.  The encoder and decoder themselves are library code
(nla_put_string in the kernel and libnl, nla_parse and nla_get_string in
libnl) invoked by src/us/genltest.c and src/ks/genltest.c but not part of
this repository; they are modelled from the wire format of spec sections
4.1 and 6: an attribute record is a 16-bit total length, a 16-bit
attribute id, the payload bytes (for the string kind including one
trailing zero byte), padded to a 4-byte boundary. -/

/-- Header length of one attribute record: two 16-bit fields. -/
def NLA_HDRLEN : Nat := 4

/-- Round a record length up to the 4-byte alignment of the wire format. -/
def nlaAlignN (n : Nat) : Nat := (n + 3) / 4 * 4

/-- Largest string payload (terminator excluded) whose record still fits
the 16-bit record length field. -/
def maxAttrPayload : Nat := 65535 - NLA_HDRLEN - 1

/-- Modelled from the spec: encode(attr_id, value) for the string kind
(sections 4.1 and 6; nla_put_string is not in src/).  Writes the record
length and attribute id as little-endian 16-bit fields, then the value
bytes, one terminating zero byte, and zero padding to a 4-byte boundary. -/
def encodeStrAttr (attrId : Nat) (s : List Nat) : List Nat :=
  let payload := s ++ [0]
  let nlaLen := NLA_HDRLEN + payload.length
  (nlaLen % 256) :: (nlaLen / 256 % 256) :: (attrId % 256) :: (attrId / 256 % 256) ::
    (payload ++ List.replicate (nlaAlignN nlaLen - nlaLen) 0)

/-- Modelled from the spec: the record walk of decode (section 4.1;
libnl nla_parse is not in src/).  Fuel-indexed to make the recursion
structural; each step reads one record header, stops when fewer than
NLA_HDRLEN bytes remain or the declared length is shorter than a header
or reads past the buffer end, and otherwise yields the record's id and
payload and advances by the aligned record length. -/
def walkAttrsF : Nat → List Nat → List (Nat × List Nat)
  | fuel + 1, b0 :: b1 :: b2 :: b3 :: rest =>
    let nlaLen := b0 + 256 * b1
    if NLA_HDRLEN ≤ nlaLen ∧ nlaLen ≤ NLA_HDRLEN + rest.length then
      (b2 + 256 * b3, rest.take (nlaLen - NLA_HDRLEN)) ::
        walkAttrsF fuel ((b0 :: b1 :: b2 :: b3 :: rest).drop (nlaAlignN nlaLen))
    else []
  | _, _ => []

/-- Record walk over a whole buffer; one unit of fuel per byte suffices
because every step consumes at least NLA_HDRLEN bytes. -/
def walkAttrs (buf : List Nat) : List (Nat × List Nat) := walkAttrsF buf.length buf

/-- Modelled from the spec: the attribute table nla_parse fills (section
4.1; permissive decoding, ids above the declared maximum are skipped,
a repeated id overwrites the earlier entry).  Yields the payload stored
at index t. -/
def tbGet (maxtype t : Nat) (buf : List Nat) : Option (List Nat) :=
  (walkAttrs buf).foldl
    (fun acc p => if p.1 ≤ maxtype ∧ p.1 = t then some p.2 else acc) none

/-- Modelled from the spec: nla_get_string (not in src/) reads the stored
payload as a C string, the bytes before the first zero byte. -/
def nla_get_string (payload : List Nat) : List Nat := cstr payload

/-- Decoding the GENLTEST_A_MSG string out of an attribute buffer, as
echo_reply_handler does (src/us/genltest.c lines 40-53): parse the records
into the table, require the entry for GENLTEST_A_MSG, read it as a string. -/
def decodeMsgAttr (buf : List Nat) : Option (List Nat) :=
  (tbGet GENLTEST_A_MAX GENLTEST_A_MSG buf).map nla_get_string

/-! Helper lemmas. -/

/-- Reading a zero-terminated buffer built from a zero-free byte list
returns that list. -/
theorem cstr_append_zero (l : List Nat) (h : ∀ b ∈ l, b ≠ 0) :
    cstr (l ++ [0]) = l := by
  induction l with
  | nil => rfl
  | cons a t ih =>
    have ha : a ≠ 0 := h a (List.mem_cons_self a t)
    have ht : ∀ b ∈ t, b ≠ 0 := fun b hb => h b (List.mem_cons_of_mem a hb)
    simp only [cstr, List.cons_append, List.takeWhile_cons, decide_eq_true ha, if_true]
    exact congrArg (a :: ·) (ih ht)

/-- A 16-bit value split into two little-endian bytes is recovered by
byte0 + 256 * byte1. -/
theorem u16_split_add (n : Nat) (h : n ≤ 65535) :
    n % 256 + 256 * (n / 256 % 256) = n := by omega

/-- The record walk on an empty buffer is empty, whatever the fuel. -/
theorem walkAttrsF_nil (f : Nat) : walkAttrsF f [] = [] := by
  cases f <;> rfl

/-- One step of the record walk on a buffer with at least a full header. -/
theorem walkAttrsF_cons (f b0 b1 b2 b3 : Nat) (rest : List Nat) :
    walkAttrsF (f + 1) (b0 :: b1 :: b2 :: b3 :: rest) =
      if NLA_HDRLEN ≤ b0 + 256 * b1 ∧ b0 + 256 * b1 ≤ NLA_HDRLEN + rest.length then
        (b2 + 256 * b3, rest.take (b0 + 256 * b1 - NLA_HDRLEN)) ::
          walkAttrsF f ((b0 :: b1 :: b2 :: b3 :: rest).drop (nlaAlignN (b0 + 256 * b1)))
      else [] := rfl

/-- The record walk over the encoding of one string attribute whose record
fits the 16-bit length field yields exactly that record. -/
theorem walkAttrs_encode (attrId : Nat) (s : List Nat)
    (h : NLA_HDRLEN + s.length + 1 ≤ 65535) :
    walkAttrs (encodeStrAttr attrId s) =
      [(attrId % 256 + 256 * (attrId / 256 % 256), s ++ [0])] := by
  have hL4 : NLA_HDRLEN ≤ NLA_HDRLEN + (s.length + 1) := Nat.le_add_right _ _
  have hL65 : NLA_HDRLEN + (s.length + 1) ≤ 65535 := by omega
  have hAlignGe : NLA_HDRLEN + (s.length + 1) ≤ nlaAlignN (NLA_HDRLEN + (s.length + 1)) := by
    unfold nlaAlignN NLA_HDRLEN
    omega
  have hbuf : encodeStrAttr attrId s =
      ((NLA_HDRLEN + (s.length + 1)) % 256) ::
      ((NLA_HDRLEN + (s.length + 1)) / 256 % 256) ::
      (attrId % 256) :: (attrId / 256 % 256) ::
      ((s ++ [0]) ++
        List.replicate
          (nlaAlignN (NLA_HDRLEN + (s.length + 1)) - (NLA_HDRLEN + (s.length + 1))) 0) := by
    simp [encodeStrAttr]
  rw [walkAttrs, hbuf]
  simp only [List.length_cons, List.length_append, List.length_replicate,
    List.length_singleton]
  rw [walkAttrsF_cons]
  rw [u16_split_add _ hL65]
  have hcond : NLA_HDRLEN ≤ NLA_HDRLEN + (s.length + 1) ∧
      NLA_HDRLEN + (s.length + 1) ≤
        NLA_HDRLEN + ((s ++ [0]) ++
          List.replicate
            (nlaAlignN (NLA_HDRLEN + (s.length + 1)) - (NLA_HDRLEN + (s.length + 1))) 0).length := by
    constructor
    · exact hL4
    · simp only [List.length_append, List.length_replicate, List.length_singleton]
      omega
  rw [if_pos hcond]
  have htake : ((s ++ [0]) ++
      List.replicate
        (nlaAlignN (NLA_HDRLEN + (s.length + 1)) - (NLA_HDRLEN + (s.length + 1))) 0).take
        (NLA_HDRLEN + (s.length + 1) - NLA_HDRLEN) = s ++ [0] := by
    have hplen : (s ++ [0]).length = NLA_HDRLEN + (s.length + 1) - NLA_HDRLEN := by
      simp
    rw [← hplen, List.take_left]
  have hdrop : (((NLA_HDRLEN + (s.length + 1)) % 256) ::
      ((NLA_HDRLEN + (s.length + 1)) / 256 % 256) ::
      (attrId % 256) :: (attrId / 256 % 256) ::
      ((s ++ [0]) ++
        List.replicate
          (nlaAlignN (NLA_HDRLEN + (s.length + 1)) - (NLA_HDRLEN + (s.length + 1))) 0)).drop
        (nlaAlignN (NLA_HDRLEN + (s.length + 1))) = [] := by
    apply List.drop_eq_nil_of_le
    simp only [List.length_cons, List.length_append, List.length_replicate,
      List.length_singleton, List.length_nil]
    unfold nlaAlignN NLA_HDRLEN
    omega
  rw [htake, hdrop, walkAttrsF_nil]

/-! Claim theorems. -/

/-- C1: for every inbound ECHO request the dispatcher delivered to the
handler (any decoded attribute table, any sender), when the reply-building
primitives succeed, echo_doit hands genlmsg_reply a message whose single
MSG attribute is exactly the string Hello from Kernel Space, Netlink!,
with the header port id and sequence number taken from the request sender,
and the builder ledger is alloc, finalize, consuming send. -/
theorem echo_doit_replies_to_sender (info : GenlInfo) (o : KernOut)
    (h1 : o.nlmsgNewOk = true) (h2 : o.genlmsgPutOk = true)
    (h3 : o.nlaPutRet = 0) :
    (echo_doit info o).2.1 =
      some ⟨info.snd_portid, info.snd_seq, GENLTEST_CMD_ECHO, kernelHello⟩ ∧
    (echo_doit info o).2.2 = [Ev.alloc, Ev.fin, Ev.consume] := by
  constructor <;> simp [echo_doit, h1, h2, h3]

/-- Witness for C1 at a concrete request carrying MSG and sender 5, 7. -/
theorem echo_doit_replies_to_sender_w :
    allOk.nlaPutRet = 0 ∧
    (echo_doit ⟨some (strBytes "ping"), 5, 7⟩ allOk).2.1 =
      some ⟨5, 7, GENLTEST_CMD_ECHO, kernelHello⟩ ∧
    (echo_doit ⟨some (strBytes "ping"), 5, 7⟩ allOk).2.2 =
      [Ev.alloc, Ev.fin, Ev.consume] :=
  ⟨rfl, echo_doit_replies_to_sender ⟨some (strBytes "ping"), 5, 7⟩ allOk rfl rfl rfl⟩

/-- C2: a request with no MSG attribute passes the echo_pol policy (the
policy requires nothing, it only types a present MSG), and echo_doit
treats it as the empty-message case, still building and sending the reply
and returning the reply-send result rather than an error of its own. -/
theorem echo_doit_missing_msg_ok (pid seq : Nat) (o : KernOut)
    (h1 : o.nlmsgNewOk = true) (h2 : o.genlmsgPutOk = true)
    (h3 : o.nlaPutRet = 0) :
    echo_pol_validate none = true ∧
    (echo_doit ⟨none, pid, seq⟩ o).1 = o.sendRet ∧
    (echo_doit ⟨none, pid, seq⟩ o).2.1 =
      some ⟨pid, seq, GENLTEST_CMD_ECHO, kernelHello⟩ := by
  refine ⟨rfl, ?_, ?_⟩ <;> simp [echo_doit, h1, h2, h3]

/-- Witness for C2 at sender 3, 4 with every primitive succeeding. -/
theorem echo_doit_missing_msg_ok_w :
    allOk.genlmsgPutOk = true ∧
    (echo_pol_validate none = true ∧
     (echo_doit ⟨none, 3, 4⟩ allOk).1 = allOk.sendRet ∧
     (echo_doit ⟨none, 3, 4⟩ allOk).2.1 =
       some ⟨3, 4, GENLTEST_CMD_ECHO, kernelHello⟩) :=
  ⟨rfl, echo_doit_missing_msg_ok 3 4 allOk rfl rfl rfl⟩

/-- C9: the MSG payload of the reply echo_doit produces is independent of
the request: two runs under the same primitive outcomes but arbitrary,
possibly different, decoded requests hand genlmsg_reply the same MSG
string (and a reply exists in one run exactly when it exists in the
other). -/
theorem echo_reply_independent_of_request (i1 i2 : GenlInfo) (o : KernOut) :
    ((echo_doit i1 o).2.1).map Reply.msg = ((echo_doit i2 o).2.1).map Reply.msg := by
  rcases o with ⟨n, g, p, r⟩
  cases n <;> cases g <;> by_cases hp : p = 0 <;> simp [echo_doit, hp]

/-- C10: ping_store always reports success with the truncated byte count
min cnt MSG_MAX_LEN, whatever the broadcast primitives do (allocation
failure, header failure, attribute failure, send failure included): the
echo_ping result is discarded. -/
theorem ping_store_return_ignores_emit (data : List Nat) (o : KernOut) :
    (ping_store data o).1 = min data.length MSG_MAX_LEN := by
  by_cases h : data.length > MSG_MAX_LEN
  · simp [ping_store, h, Nat.min_eq_right (Nat.le_of_lt h)]
  · simp [ping_store, h, Nat.min_eq_left (Nat.le_of_not_lt h)]

/-- C6: when the multicast send is attempted (allocation and building
succeeded) with zero subscribers, the transport returns -ESRCH and
echo_ping classifies the run as the distinguished noSubscribers status,
which differs from both delivered and sendFailure; echo_ping completes
normally, returning -ESRCH.  echo_ping is a total function, so the run
terminates without fault. -/
theorem echo_ping_zero_subscribers (buf : List Nat) (cnt : Nat) (o : KernOut)
    (h1 : o.nlmsgNewOk = true) (h2 : o.genlmsgPutOk = true)
    (h3 : o.nlaPutRet = 0) (h4 : o.sendRet = -ESRCH) :
    (echo_ping buf cnt o).1 = -ESRCH ∧
    (echo_ping buf cnt o).2.2.1 = some McastStatus.noSubscribers ∧
    McastStatus.noSubscribers ≠ McastStatus.delivered ∧
    McastStatus.noSubscribers ≠ McastStatus.sendFailure := by
  refine ⟨?_, ?_, by decide, by decide⟩ <;>
    simp [echo_ping, classifyMcast, h1, h2, h3, h4]

/-- Witness for C6 at a concrete buffer with the nobody-listening send
result. -/
theorem echo_ping_zero_subscribers_w :
    (⟨true, true, 0, -ESRCH⟩ : KernOut).sendRet = -ESRCH ∧
    ((echo_ping [104] 1 ⟨true, true, 0, -ESRCH⟩).1 = -ESRCH ∧
     (echo_ping [104] 1 ⟨true, true, 0, -ESRCH⟩).2.2.1 =
       some McastStatus.noSubscribers ∧
     McastStatus.noSubscribers ≠ McastStatus.delivered ∧
     McastStatus.noSubscribers ≠ McastStatus.sendFailure) :=
  ⟨rfl, echo_ping_zero_subscribers [104] 1 ⟨true, true, 0, -ESRCH⟩ rfl rfl rfl rfl⟩

/-- C7 fails on the code: when both connects succeed and the family
resolve fails (here with -ENOENT, FamilyNotFound), main jumps to out with
ret still holding the 0 assigned by the successful conn, so the process
exits with status 0, not 1; the same happens on a failed group resolve.
A failed connect likewise does not exit 1 but with the low byte of the
negative errno (244 for -ENOMEM). -/
theorem main_resolve_fail_exits_zero :
    mainModel ⟨0, 0, -ENOENT, 0, 0, 0, 0, 0⟩ = some 0 ∧
    exitStatus 0 = 0 ∧
    mainModel ⟨0, 0, 0, -ENOENT, 0, 0, 0, 0⟩ = some 0 ∧
    mainModel ⟨-ENOMEM, 0, 0, 0, 0, 0, 0, 0⟩ = some (-ENOMEM) ∧
    exitStatus (-ENOMEM) = 244 := by
  refine ⟨?_, rfl, ?_, ?_, ?_⟩ <;> decide

/-- C5 fails on the code: in send_echo_msg the genlmsg_put failure branch
returns -EMSGSIZE without releasing the allocated builder, and the
nla_put_string failure branch likewise returns (with the sign of the
error flipped to positive) without releasing it: one buffer allocated,
zero released.  The kernel-side builders (echo_doit, echo_ping) do
release exactly once on the corresponding paths. -/
theorem send_echo_msg_builder_leak :
    allocCount (send_echo_msg 16 ⟨true, false, 0, 0⟩).2.2 = 1 ∧
    releaseCount (send_echo_msg 16 ⟨true, false, 0, 0⟩).2.2 = 0 ∧
    (send_echo_msg 16 ⟨true, false, 0, 0⟩).1 = -EMSGSIZE ∧
    allocCount (send_echo_msg 16 ⟨true, true, -22, 0⟩).2.2 = 1 ∧
    releaseCount (send_echo_msg 16 ⟨true, true, -22, 0⟩).2.2 = 0 ∧
    (send_echo_msg 16 ⟨true, true, -22, 0⟩).1 = 22 ∧
    allocCount (echo_doit ⟨none, 1, 1⟩ ⟨true, false, 0, 0⟩).2.2 =
      releaseCount (echo_doit ⟨none, 1, 1⟩ ⟨true, false, 0, 0⟩).2.2 ∧
    allocCount (echo_ping [104] 1 ⟨true, true, -22, 0⟩).2.2.2 =
      releaseCount (echo_ping [104] 1 ⟨true, true, -22, 0⟩).2.2.2 := by
  refine ⟨?_, ?_, ?_, ?_, ?_, ?_, ?_, ?_⟩ <;> decide

/-- ping_store hands the multicast path the whole C string of the sysfs
buffer whenever building succeeds: the content does not depend on the
truncated count. -/
theorem ping_store_emits_full_cstr (data : List Nat) (o : KernOut)
    (h1 : o.nlmsgNewOk = true) (h2 : o.genlmsgPutOk = true)
    (h3 : o.nlaPutRet = 0) :
    ((ping_store data o).2.2.1).map Mcast.msg = some (cstr (data ++ [0])) := by
  simp [ping_store, echo_ping, h1, h2, h3]

/-- C3 fails on the code: writing 2000 non-zero bytes to the trigger file
does report the truncated count 1024, but the content handed to
genlmsg_multicast is the full 2000-byte string: echo_ping never reads its
cnt argument and nla_put_string copies the whole zero-terminated sysfs
buffer, so the emitted MSG content is not truncated to the cap. -/
theorem ping_store_no_truncation_bug :
    (ping_store (List.replicate 2000 97) allOk).1 = 1024 ∧
    ((ping_store (List.replicate 2000 97) allOk).2.2.1).map Mcast.msg =
      some (List.replicate 2000 97) ∧
    (List.replicate 2000 97).length = 2000 := by
  have hz : ∀ b ∈ List.replicate 2000 97, b ≠ (0 : Nat) := by
    intro b hb
    rw [List.eq_of_mem_replicate hb]
    decide
  have hc : cstr (List.replicate 2000 97 ++ [0]) = List.replicate 2000 97 :=
    cstr_append_zero _ hz
  refine ⟨?_, ?_, List.length_replicate 2000 97⟩
  · simp only [ping_store, List.length_replicate]
    norm_num [MSG_MAX_LEN]
  · rw [ping_store_emits_full_cstr (List.replicate 2000 97) allOk rfl rfl rfl, hc]

/-- Every observable state of any service lifecycle is one of the three
named states. -/
theorem lifecycle_states (e : InitEnv) :
    ∀ s ∈ lifecycle e, s = sNone ∨ s = sFile ∨ s = sReg := by
  intro s hs
  rcases e with ⟨k, cr, rr⟩
  cases k <;> by_cases h1 : cr = 0 <;> by_cases h2 : rr = 0 <;>
    simp_all [lifecycle, init_trace, exit_trace, genl_unregister,
      sNone, sFile, sReg, ENOMEM] <;>
    tauto

/-- C8: in every lifecycle of the service (any outcome of kobject
creation, sysfs file creation and family registration, followed on
successful init by the module exit sequence), every observable state that
has the family registered also has the trigger file present: the file is
created before genl_register_family is called and removed only after
genl_unregister_family has run. -/
theorem registered_implies_trigger_file (e : InitEnv) (s : SvcState)
    (hs : s ∈ lifecycle e) (hr : s.registered = true) : s.triggerFile = true := by
  rcases lifecycle_states e s hs with rfl | rfl | rfl
  · exact absurd hr (by decide)
  · exact absurd hr (by decide)
  · rfl

/-- Witness for C8 at the fully successful lifecycle and its registered
state. -/
theorem registered_implies_trigger_file_w :
    sReg ∈ lifecycle ⟨true, 0, 0⟩ ∧ sReg.triggerFile = true :=
  ⟨by decide, registered_implies_trigger_file ⟨true, 0, 0⟩ sReg (by decide) rfl⟩

/-- C4: the attribute codec round-trips: for every zero-free byte string
whose length fits the maximum attribute payload, decoding the buffer
produced by encoding it under attribute id GENLTEST_A_MSG yields exactly
that string back, the way echo_reply_handler recovers the MSG attribute
from a received message. -/
theorem attr_codec_roundtrip (s : List Nat)
    (hlen : s.length ≤ maxAttrPayload) (hz : ∀ b ∈ s, b ≠ 0) :
    decodeMsgAttr (encodeStrAttr GENLTEST_A_MSG s) = some s := by
  have h65535 : NLA_HDRLEN + s.length + 1 ≤ 65535 := by
    simp only [maxAttrPayload, NLA_HDRLEN] at hlen ⊢
    omega
  have hw := walkAttrs_encode GENLTEST_A_MSG s h65535
  unfold decodeMsgAttr tbGet
  rw [hw]
  simp only [GENLTEST_A_MSG, GENLTEST_A_MAX, List.foldl_cons, List.foldl_nil]
  norm_num
  exact cstr_append_zero s hz

/-- Witness for C4 at the concrete two-byte string hi. -/
theorem attr_codec_roundtrip_w :
    (∀ b ∈ [104, 105], b ≠ (0 : Nat)) ∧
    decodeMsgAttr (encodeStrAttr GENLTEST_A_MSG [104, 105]) = some [104, 105] :=
  ⟨by decide, attr_codec_roundtrip [104, 105] (by decide) (by decide)⟩
